import Mathlib

/-!
Shallow embedding of the wallet-api repository (Express + Neon + Upstash).
The repository snapshot contains `routes/transactionsRoute.js` and a README
whose tail embeds the literal `server.js`; the controllers, the rate-limiter
middleware and the Upstash configuration are described by the README and the
specification, and are modelled from those words where the file itself is
absent.
-/

namespace WalletApi

/-! ## Rate limiter (config/upstash.js + spec section 4.1) -/

/-- Limiter policy: maximum count `limit` per window of `window` seconds.
The README's `config/upstash.js` configures `Ratelimit.slidingWindow(100, '60 s')`. -/
structure LimiterConfig where
  limit : Nat
  window : Nat
deriving DecidableEq

/-- Per-key counter state, as in the spec's RateWindow data model. -/
structure RateWindow where
  windowStart : Nat
  count : Nat
deriving DecidableEq

/-- The limiter's keyed state: at most one window per key. -/
def LimiterState : Type := String → Option RateWindow

/-- Replace the window stored for one key, leaving every other key alone. -/
def setW (st : LimiterState) (key : String) (w : RateWindow) : LimiterState :=
  fun k => if k = key then some w else st k

/-- Modelled from the spec: the rlimit algorithm of section 4.1 (the Upstash
limiter library invoked by `config/upstash.js` is not part of the snapshot).
Steps: no window or elapsed window starts a fresh window with count 1 and
allows; an active window below the limit increments and allows; an active
window at or above the limit denies without incrementing. -/
def rlimit (cfg : LimiterConfig) (st : LimiterState) (key : String) (now : Nat) :
    Bool × LimiterState :=
  match st key with
  | none => (true, setW st key ⟨now, 1⟩)
  | some w =>
    if w.windowStart + cfg.window ≤ now then
      (true, setW st key ⟨now, 1⟩)
    else if w.count < cfg.limit then
      (true, setW st key ⟨w.windowStart, w.count + 1⟩)
    else
      (false, st)

/-- The configured default policy: 100 requests per 60 seconds. -/
def defaultLimiter : LimiterConfig := ⟨100, 60⟩

/-- A small policy (limit 2, window 60) used by the spec's L=2 scenario. -/
def cfg2 : LimiterConfig := ⟨2, 60⟩

/-- The empty limiter state: no key has a window. -/
def lSt0 : LimiterState := fun _ => none

/-- State after the first rlimit of key k at time 0 under cfg2. -/
def lSt1 : LimiterState := (rlimit cfg2 lSt0 "k" 0).2

/-- State after the second rlimit of key k (time 5, same window) under cfg2. -/
def lSt2 : LimiterState := (rlimit cfg2 lSt1 "k" 5).2

/-- Modelled from the source README: `middleware/rateLimiter.js` calls
`ratelimit.limit` with the fixed string key, the same for every caller. -/
def middlewareKey (_client : String) : String := "my-rate-limit"

/-- The rlimit decision as the middleware actually performs it: the caller's
identity is discarded and the shared fixed key is used. -/
def middlewareLimit (cfg : LimiterConfig) (st : LimiterState) (client : String)
    (now : Nat) : Bool × LimiterState :=
  rlimit cfg st (middlewareKey client) now

/-- Limiter state after client alice's first request through the middleware. -/
def mSt1 : LimiterState := (middlewareLimit cfg2 lSt0 "alice" 0).2

/-- Limiter state after client alice's second request through the middleware. -/
def mSt2 : LimiterState := (middlewareLimit cfg2 mSt1 "alice" 1).2

/-- Run n rlimit calls for one key at one instant, counting how many the
limiter allows.  Each call is one atomic step, matching the spec's required
atomic compare-and-increment; any concurrent interleaving of atomic calls is
one such serialization. -/
def rlimitN (cfg : LimiterConfig) (key : String) (now : Nat) :
    Nat → LimiterState → Nat × LimiterState
  | 0, st => (0, st)
  | n + 1, st =>
    ((if (rlimit cfg st key now).1 then 1 else 0) +
        (rlimitN cfg key now n (rlimit cfg st key now).2).1,
      (rlimitN cfg key now n (rlimit cfg st key now).2).2)

/-! ## Ledger store (config/db.js schema + controllers/transactionsController.js) -/

/-- A transaction row, after the README's `initDB` schema: id SERIAL,
user_id, title, category VARCHAR NOT NULL, amount DECIMAL(10,2) NOT NULL,
created_at DATE.  `amount` is an exact rational, `created_at` a day number. -/
structure Transaction where
  id : Nat
  user_id : String
  title : String
  amount : ℚ
  category : String
  created_at : Nat
deriving DecidableEq

/-- The store: persisted rows plus the SERIAL sequence for the next id. -/
structure Store where
  rows : List Transaction
  nextId : Nat
deriving DecidableEq

/-- Ordering of the listing: `a` may appear before `b` when `a` was created
on a later date, or on the same date with the larger (or equal) id. -/
def txBefore (a b : Transaction) : Prop :=
  b.created_at < a.created_at ∨ (b.created_at = a.created_at ∧ b.id ≤ a.id)

instance : DecidableRel txBefore := fun a b =>
  inferInstanceAs (Decidable (b.created_at < a.created_at ∨
    (b.created_at = a.created_at ∧ b.id ≤ a.id)))

instance : IsTotal Transaction txBefore :=
  ⟨by intro a b; unfold txBefore; omega⟩

instance : IsTrans Transaction txBefore :=
  ⟨by intro a b c hab hbc; unfold txBefore at hab hbc ⊢; omega⟩

/-- Modelled from the spec: `getTransactionsByUserId` of the controller (not
in the snapshot) returns all of the owner's rows ordered by created_at
descending, ties broken by id descending. -/
def getTransactionsByUserId (s : Store) (owner : String) : List Transaction :=
  List.insertionSort txBefore (s.rows.filter fun t => t.user_id == owner)

/-- The amounts of all of one owner's transactions. -/
def txAmounts (s : Store) (owner : String) : List ℚ :=
  ((s.rows.filter fun t => t.user_id == owner).map fun t => t.amount)

/-- The summary record returned by the summary endpoint. -/
structure Summary where
  balance : ℚ
  income : ℚ
  expenses : ℚ
deriving DecidableEq

/-- Modelled from the spec: `getSummaryByUserID` of the controller (not in
the snapshot) sums all amounts, the positive amounts, and the negative
amounts (keeping the negative sign) over the owner's rows. -/
def getSummaryByUserID (s : Store) (owner : String) : Summary :=
  { balance := (txAmounts s owner).sum
    income := ((txAmounts s owner).filter fun a => decide (0 < a)).sum
    expenses := ((txAmounts s owner).filter fun a => decide (a < 0)).sum }

/-- Outcome of a delete request. -/
inductive DeleteOutcome
  | deleted
  | validationError
  | notFound
deriving DecidableEq

/-- Accumulator loop of the decimal parser: consumes digits, fails on any
non-digit character. -/
def digitsAcc : List Char → Nat → Option Nat
  | [], acc => some acc
  | c :: cs, acc =>
    if c.isDigit then digitsAcc cs (acc * 10 + (c.toNat - 48)) else none

/-- Parse a non-empty all-digit string as a natural number, the numeric-id
check the controller performs on the delete path parameter. -/
def parseNat? (s : String) : Option Nat :=
  match s.data with
  | [] => none
  | c :: cs => digitsAcc (c :: cs) 0

/-- Modelled from the spec: `deleteTransaction` of the controller (not in
the snapshot) rejects a non-numeric id before touching the store, reports
NotFound when no row has the id, and otherwise removes the row. -/
def deleteTransaction (s : Store) (idStr : String) : DeleteOutcome × Store :=
  match parseNat? idStr with
  | none => (DeleteOutcome.validationError, s)
  | some n =>
    if s.rows.any fun t => t.id == n then
      (DeleteOutcome.deleted, ⟨s.rows.filter fun t => decide (t.id ≠ n), s.nextId⟩)
    else
      (DeleteOutcome.notFound, s)

/-- The request body seen by the create handler: each field is present or
absent, and `amount` parses to a number only when present and numeric. -/
structure CreateReq where
  title : Option String
  amount : Option ℚ
  category : Option String
  user_id : Option String
deriving DecidableEq

/-- Outcome of a create request: the created row, or a validation failure
naming the missing or invalid field. -/
inductive CreateResult
  | created (t : Transaction)
  | validationError (field : String)
deriving DecidableEq

/-- True exactly on validation failures. -/
def isValidationError : CreateResult → Bool
  | CreateResult.validationError _ => true
  | _ => false

/-- Modelled from the spec: `createTransaction` of the controller (not in
the snapshot) validates that all four fields are present and
non-empty/numeric, names the offending field on failure, and on success
persists a row with the store-assigned id and creation date. -/
def createTransaction (s : Store) (req : CreateReq) (today : Nat) :
    CreateResult × Store :=
  match req.title, req.amount, req.category, req.user_id with
  | some title, some amount, some category, some owner =>
    if title = "" then (CreateResult.validationError "title", s)
    else if category = "" then (CreateResult.validationError "category", s)
    else if owner = "" then (CreateResult.validationError "user_id", s)
    else
      (CreateResult.created ⟨s.nextId, owner, title, amount, category, today⟩,
        ⟨⟨s.nextId, owner, title, amount, category, today⟩ :: s.rows, s.nextId + 1⟩)
  | none, _, _, _ => (CreateResult.validationError "title", s)
  | some _, none, _, _ => (CreateResult.validationError "amount", s)
  | some _, some _, none, _ => (CreateResult.validationError "category", s)
  | some _, some _, some _, none => (CreateResult.validationError "user_id", s)

/-- The body the controller reads: the parsed payload when the JSON body
parser ran before the handler, otherwise the unparsed body, in which every
field is absent. -/
def bodyOf (parsed : Bool) (payload : CreateReq) : CreateReq :=
  if parsed then payload else ⟨none, none, none, none⟩

/-- The freshly initialized store. -/
def store0 : Store := ⟨[], 1⟩

/-- Store after creating the Salary transaction of the spec's scenario. -/
def storeSalary : Store :=
  (createTransaction store0 ⟨some "Salary", some 2000, some "Income", some "u1"⟩ 0).2

/-- Store after also creating the Rent transaction of the spec's scenario. -/
def storeRent : Store :=
  (createTransaction storeSalary ⟨some "Rent", some (-800), some "Housing", some "u1"⟩ 0).2

/-! ## Router (routes/transactionsRoute.js) and pipeline (embedded server.js) -/

/-- HTTP methods used by the routes. -/
inductive Method
  | GET
  | POST
  | DELETE
deriving DecidableEq

/-- The four controller handlers named by routes/transactionsRoute.js. -/
inductive Handler
  | getTransactionsByUserId
  | createTransaction
  | deleteTransaction
  | getSummaryByUserID
deriving DecidableEq

/-- One segment of an Express route pattern: a literal, or a named
parameter, which matches exactly one path segment. -/
inductive Seg
  | lit (s : String)
  | param (name : String)
deriving DecidableEq

/-- Whether one pattern segment matches one path segment. -/
def segMatches : Seg → String → Bool
  | Seg.lit s, x => s == x
  | Seg.param _, _ => true

/-- Express pattern matching: a pattern matches a path exactly when the
segments pair up one-to-one. -/
def patMatches : List Seg → List String → Bool
  | [], [] => true
  | s :: ps, x :: xs => segMatches s x && patMatches ps xs
  | _, _ => false

/-- A registered route: its method, pattern, and handler. -/
structure Route where
  method : Method
  pattern : List Seg
  handler : Handler

/-- The router of routes/transactionsRoute.js, in registration order:
GET /:userId, POST /, DELETE /:id, GET /summary/:userId. -/
def transactionsRoute : List Route :=
  [⟨Method.GET, [Seg.param "userId"], Handler.getTransactionsByUserId⟩,
    ⟨Method.POST, [], Handler.createTransaction⟩,
    ⟨Method.DELETE, [Seg.param "id"], Handler.deleteTransaction⟩,
    ⟨Method.GET, [Seg.lit "summary", Seg.param "userId"], Handler.getSummaryByUserID⟩]

/-- Express dispatch inside the router: the first registered route whose
method and pattern match wins. -/
def dispatch (m : Method) (path : List String) : Option Handler :=
  (transactionsRoute.find? fun r => decide (r.method = m) && patMatches r.pattern path).map
    Route.handler

/-- The application layers of the embedded server.js. -/
inductive AppLayer
  | healthRoute
  | transactionsMount
  | rateLimiterWare
  | jsonWare
deriving DecidableEq

/-- Registration order in the embedded server.js: the health route, then the
transactions router mount, then the rate-limiter middleware, then the JSON
body parser. -/
def appLayers : List AppLayer :=
  [AppLayer.healthRoute, AppLayer.transactionsMount,
    AppLayer.rateLimiterWare, AppLayer.jsonWare]

/-- The externally visible outcome of running the layer pipeline.  A routed
outcome records which handler ran, whether the JSON parser had run before it
(so the body was parsed), and whether the rate limiter had been consulted. -/
inductive Outcome
  | health
  | routed (h : Handler) (bodyParsed : Bool) (limiterChecked : Bool)
  | throttled
  | fallthrough
deriving DecidableEq

/-- Run the request through the layers in registration order.  A matching
route terminates the request; the limiter middleware terminates it with a
throttling outcome when the rlimit decision is negative, and otherwise passes
it on; the JSON parser marks the body parsed and passes it on. -/
def runLayers (allowed : Bool) :
    List AppLayer → Bool → Bool → Method → List String → Outcome
  | [], _, _, _, _ => Outcome.fallthrough
  | AppLayer.healthRoute :: rest, parsed, checked, m, path =>
    match m, path with
    | Method.GET, ["api", "health"] => Outcome.health
    | _, _ => runLayers allowed rest parsed checked m path
  | AppLayer.transactionsMount :: rest, parsed, checked, m, path =>
    match path with
    | "api" :: "transactions" :: sub =>
      match dispatch m sub with
      | some h => Outcome.routed h parsed checked
      | none => runLayers allowed rest parsed checked m path
    | _ => runLayers allowed rest parsed checked m path
  | AppLayer.rateLimiterWare :: rest, parsed, _, m, path =>
    if allowed then runLayers allowed rest parsed true m path else Outcome.throttled
  | AppLayer.jsonWare :: rest, _, checked, m, path =>
    runLayers allowed rest true checked m path

/-- Process one request exactly as the embedded server.js is wired:
`allowed` is the rlimit decision the limiter would give if consulted. -/
def serverRun (allowed : Bool) (m : Method) (path : List String) : Outcome :=
  runLayers allowed appLayers false false m path

/-! ## Theorems -/

/-- C1: in the embedded server.js pipeline, requests to the transaction
endpoints are handled by the router mounted before the rate-limiter layer,
so the limiter is never consulted: even with a denying limiter decision the
list and create requests are routed to their handlers with the
limiter-checked flag false, and the outcome is not a throttling one.  This
exhibits the divergence from the claim that the rlimit decision is evaluated
before every store operation. -/
theorem limiter_bypassed_for_transactions :
    serverRun false Method.GET ["api", "transactions", "u1"] =
      Outcome.routed Handler.getTransactionsByUserId false false ∧
    serverRun false Method.POST ["api", "transactions"] =
      Outcome.routed Handler.createTransaction false false ∧
    serverRun false Method.DELETE ["api", "transactions", "3"] =
      Outcome.routed Handler.deleteTransaction false false ∧
    serverRun false Method.GET ["api", "transactions", "u1"] ≠ Outcome.throttled := by
  refine ⟨rfl, rfl, rfl, ?_⟩
  decide

/-- C8 counterexample: the routes file registers the generic parameterized
route first (it is the head of the registration list, the summary route
last), contradicting the claim that the literal summary segment must be and
is registered ahead of it; dispatch of the summary path is nevertheless
correct at the concrete input owner u1. -/
theorem summary_route_order_cex :
    transactionsRoute.map Route.handler =
      [Handler.getTransactionsByUserId, Handler.createTransaction,
        Handler.deleteTransaction, Handler.getSummaryByUserID] ∧
    dispatch Method.GET ["summary", "u1"] = some Handler.getSummaryByUserID := by
  exact ⟨rfl, rfl⟩

/-- C8 amended: a request GET /transactions/summary/owner is always
dispatched to the summary handler and is never captured by the generic
parameterized route, because a single-parameter pattern matches only
one-segment paths and cannot match the two-segment summary path; this holds
even though the generic route is registered first, so no registration-order
condition is needed. -/
theorem summary_route_dispatch (owner : String) :
    patMatches [Seg.param "userId"] ["summary", owner] = false ∧
    dispatch Method.GET ["summary", owner] = some Handler.getSummaryByUserID := by
  exact ⟨rfl, rfl⟩

/-- C9: in the embedded server.js the JSON body parser layer comes after the
router mount, so a POST to the create endpoint is routed with the
body-parsed flag false regardless of the limiter decision; the create
handler then sees the unparsed body, in which every field is absent, so it
fails field validation and leaves the store unchanged, whatever payload was
sent. -/
theorem unparsed_body_create_rejected (allowed : Bool) (payload : CreateReq)
    (s : Store) (today : Nat) :
    serverRun allowed Method.POST ["api", "transactions"] =
      Outcome.routed Handler.createTransaction false false ∧
    isValidationError (createTransaction s (bodyOf false payload) today).1 = true ∧
    (createTransaction s (bodyOf false payload) today).2 = s := by
  exact ⟨rfl, rfl, rfl⟩

/-- C2: the rlimit algorithm on one key: a missing window starts a fresh
window with count 1 and allows; an elapsed window is replaced by a fresh
window with count 1 and allows; an active window strictly below the limit
increments and allows; an active window at or above the limit denies and
leaves the state unchanged; the configured default policy is 100 requests
per 60 seconds; and under limit 2 the first two allows of key k in one
window are allowed while the third is denied without changing the state. -/
theorem window_rules (cfg : LimiterConfig) (st : LimiterState)
    (key : String) (now : Nat) :
    (st key = none → rlimit cfg st key now = (true, setW st key ⟨now, 1⟩)) ∧
    (∀ w, st key = some w → w.windowStart + cfg.window ≤ now →
      rlimit cfg st key now = (true, setW st key ⟨now, 1⟩)) ∧
    (∀ w, st key = some w → now < w.windowStart + cfg.window → w.count < cfg.limit →
      rlimit cfg st key now = (true, setW st key ⟨w.windowStart, w.count + 1⟩)) ∧
    (∀ w, st key = some w → now < w.windowStart + cfg.window → cfg.limit ≤ w.count →
      rlimit cfg st key now = (false, st)) ∧
    defaultLimiter = ⟨100, 60⟩ ∧
    (rlimit cfg2 lSt0 "k" 0).1 = true ∧ (rlimit cfg2 lSt1 "k" 5).1 = true ∧
    (rlimit cfg2 lSt2 "k" 10).1 = false ∧ (rlimit cfg2 lSt2 "k" 10).2 = lSt2 := by
  refine ⟨?_, ?_, ?_, ?_, rfl, rfl, rfl, rfl, rfl⟩
  · intro h
    simp [rlimit, h]
  · intro w hw helapsed
    simp [rlimit, hw, helapsed]
  · intro w hw hactive hcount
    rw [rlimit, hw]
    simp only
    rw [if_neg (by omega), if_pos hcount]
  · intro w hw hactive hcount
    rw [rlimit, hw]
    simp only
    rw [if_neg (by omega), if_neg (by omega)]

/-- C2 witness: each rlimit rule exercised at a concrete input. -/
theorem window_rules_witness :
    rlimit cfg2 lSt0 "k" 0 = (true, setW lSt0 "k" ⟨0, 1⟩) ∧
    rlimit cfg2 lSt1 "k" 100 = (true, setW lSt1 "k" ⟨100, 1⟩) ∧
    rlimit cfg2 lSt1 "k" 5 = (true, setW lSt1 "k" ⟨0, 2⟩) ∧
    rlimit cfg2 lSt2 "k" 10 = (false, lSt2) := by
  refine ⟨(window_rules cfg2 lSt0 "k" 0).1 rfl,
    (window_rules cfg2 lSt1 "k" 100).2.1 ⟨0, 1⟩ rfl (by decide),
    (window_rules cfg2 lSt1 "k" 5).2.2.1 ⟨0, 1⟩ rfl (by decide) (by decide),
    (window_rules cfg2 lSt2 "k" 10).2.2.2.1 ⟨0, 2⟩ rfl (by decide) (by decide)⟩

/-- C3: the middleware discards the caller's identity and uses one fixed
key, so two distinct clients share one budget: under limit 2, after client
alice's two allowed requests, client bob's first request is denied, and the
state holds no window at all under bob's own key; had the middleware passed
the caller-supplied key, bob's request would have been allowed.  This
exhibits the divergence from the claim that the limiter is keyed per caller
with independent counters. -/
theorem fixed_key_shares_budget :
    middlewareKey "alice" = middlewareKey "bob" ∧
    (middlewareLimit cfg2 lSt0 "alice" 0).1 = true ∧
    (middlewareLimit cfg2 mSt1 "alice" 1).1 = true ∧
    (middlewareLimit cfg2 mSt2 "bob" 2).1 = false ∧
    mSt2 "bob" = none ∧
    (rlimit cfg2 mSt2 "bob" 2).1 = true := by
  exact ⟨rfl, rfl, rfl, rfl, rfl, rfl⟩

/-- Helper for C10: from an active window of the current instant with count
c at most the limit, a run of n further atomic allows allows at most
limit - c of them. -/
theorem rlimitN_from_window (cfg : LimiterConfig) (key : String) (now : Nat)
    (hW : 0 < cfg.window) :
    ∀ (n : Nat) (st : LimiterState) (c : Nat), st key = some ⟨now, c⟩ →
      c ≤ cfg.limit → (rlimitN cfg key now n st).1 + c ≤ cfg.limit := by
  intro n
  induction n with
  | zero =>
    intro st c _ hc
    simpa [rlimitN] using hc
  | succ n ih =>
    intro st c hst hc
    by_cases hcount : c < cfg.limit
    · have hstep : rlimit cfg st key now = (true, setW st key ⟨now, c + 1⟩) := by
        rw [rlimit, hst]
        simp only
        rw [if_neg (by omega), if_pos hcount]
      have hkey : setW st key ⟨now, c + 1⟩ key = some ⟨now, c + 1⟩ := by
        simp [setW]
      have hrec := ih (setW st key ⟨now, c + 1⟩) (c + 1) hkey (by omega)
      simp [rlimitN, hstep]
      omega
    · have hstep : rlimit cfg st key now = (false, st) := by
        rw [rlimit, hst]
        simp only
        rw [if_neg (by omega), if_neg (by omega)]
      have hrec := ih st c hst hc
      simp [rlimitN, hstep]
      omega

/-- C10: with a positive limit and a positive window duration, any
serialization of n atomic rlimit calls for one key at one instant against a
fresh window allows at most the configured limit; since each rlimit is one
atomic compare-and-increment step, every interleaving of concurrent calls is
such a serialization. -/
theorem concurrent_calls_bounded (cfg : LimiterConfig) (st : LimiterState)
    (key : String) (now : Nat) (n : Nat) (hL : 0 < cfg.limit)
    (hW : 0 < cfg.window) (hfresh : st key = none) :
    (rlimitN cfg key now n st).1 ≤ cfg.limit := by
  cases n with
  | zero =>
    simp [rlimitN]
  | succ n =>
    have hstep : rlimit cfg st key now = (true, setW st key ⟨now, 1⟩) := by
      simp [rlimit, hfresh]
    have hkey : setW st key ⟨now, 1⟩ key = some ⟨now, 1⟩ := by
      simp [setW]
    have hrec := rlimitN_from_window cfg key now hW n (setW st key ⟨now, 1⟩) 1 hkey hL
    simp [rlimitN, hstep]
    omega

/-- C10 witness: five simultaneous allows of one key against the fresh state
under limit 2 rlimit at most 2. -/
theorem concurrent_calls_bounded_witness :
    0 < cfg2.limit ∧ 0 < cfg2.window ∧ lSt0 "k" = none ∧
    (rlimitN cfg2 "k" 0 5 lSt0).1 ≤ cfg2.limit :=
  ⟨by decide, by decide, rfl,
    concurrent_calls_bounded cfg2 lSt0 "k" 0 5 (by decide) (by decide) rfl⟩

/-- Helper for C4: a sum of rationals splits exactly into the sum of its
strictly positive members and the sum of its strictly negative members. -/
theorem sum_filter_sign_split (l : List ℚ) :
    l.sum = (l.filter fun a => decide (0 < a)).sum +
      (l.filter fun a => decide (a < 0)).sum := by
  induction l with
  | nil => simp
  | cons a t ih =>
    rcases lt_trichotomy a 0 with h | h | h
    · rw [List.sum_cons, List.filter_cons, List.filter_cons,
        if_neg (by simpa using lt_asymm h), if_pos (by simpa using h),
        List.sum_cons, ih]
      ring
    · rw [List.sum_cons, List.filter_cons, List.filter_cons,
        if_neg (by simp [h]), if_neg (by simp [h]), ih, h]
      ring
    · rw [List.sum_cons, List.filter_cons, List.filter_cons,
        if_pos (by simpa using h), if_neg (by simpa using lt_asymm h),
        List.sum_cons, ih]
      ring

/-- C4: the summary of an owner has balance the sum of all the owner's
amounts, income the sum of the strictly positive ones, expenses the sum of
the strictly negative ones with the sign kept; an owner with no transactions
gets all three fields 0; balance equals income plus expenses exactly; and
the spec's Salary/Rent scenario yields balance 1200, income 2000,
expenses -800. -/
theorem summary_semantics (s : Store) (owner : String) :
    (getSummaryByUserID s owner).balance = (txAmounts s owner).sum ∧
    (getSummaryByUserID s owner).income =
      ((txAmounts s owner).filter fun a => decide (0 < a)).sum ∧
    (getSummaryByUserID s owner).expenses =
      ((txAmounts s owner).filter fun a => decide (a < 0)).sum ∧
    ((∀ t ∈ s.rows, t.user_id ≠ owner) → getSummaryByUserID s owner = ⟨0, 0, 0⟩) ∧
    (getSummaryByUserID s owner).balance =
      (getSummaryByUserID s owner).income + (getSummaryByUserID s owner).expenses ∧
    getSummaryByUserID storeRent "u1" = ⟨1200, 2000, -800⟩ := by
  refine ⟨rfl, rfl, rfl, ?_, sum_filter_sign_split _, ?_⟩
  · intro h
    have hfil : s.rows.filter (fun t => t.user_id == owner) = [] := by
      simp only [List.filter_eq_nil_iff]
      intro t ht
      simpa using h t ht
    simp [getSummaryByUserID, txAmounts, hfil]
  · show getSummaryByUserID storeRent "u1" = ⟨1200, 2000, -800⟩
    have hrows : storeRent.rows =
        [⟨2, "u1", "Rent", -800, "Housing", 0⟩, ⟨1, "u1", "Salary", 2000, "Income", 0⟩] := rfl
    simp only [getSummaryByUserID, txAmounts, hrows]
    norm_num [List.filter, List.sum]

/-- C4 witness: the empty-owner hypothesis discharged on the scenario store,
whose rows all belong to owner u1 and none to owner nobody. -/
theorem summary_semantics_witness :
    (∀ t ∈ storeRent.rows, t.user_id ≠ "nobody") ∧
    getSummaryByUserID storeRent "nobody" = ⟨0, 0, 0⟩ :=
  ⟨by decide, (summary_semantics storeRent "nobody").2.2.2.1 (by decide)⟩

/-- C5: the listing for an owner is a permutation of exactly the owner's
rows, it is sorted by creation date descending with ties broken by id
descending, a row is listed exactly when it is a stored row of that owner,
and an owner with no rows gets the empty list rather than an error. -/
theorem list_by_owner_spec (s : Store) (owner : String) :
    (getTransactionsByUserId s owner).Perm
      (s.rows.filter fun t => t.user_id == owner) ∧
    List.Sorted txBefore (getTransactionsByUserId s owner) ∧
    (∀ t, t ∈ getTransactionsByUserId s owner ↔ t ∈ s.rows ∧ t.user_id = owner) ∧
    ((∀ t ∈ s.rows, t.user_id ≠ owner) → getTransactionsByUserId s owner = []) := by
  refine ⟨List.perm_insertionSort txBefore _, List.sorted_insertionSort txBefore _, ?_, ?_⟩
  · intro t
    unfold getTransactionsByUserId
    rw [(List.perm_insertionSort txBefore _).mem_iff]
    simp [List.mem_filter]
  · intro h
    have hfil : s.rows.filter (fun t => t.user_id == owner) = [] := by
      simp only [List.filter_eq_nil_iff]
      intro t ht
      simpa using h t ht
    unfold getTransactionsByUserId
    rw [hfil]
    rfl

/-- C5 witness: on the scenario store, owner u2 owns no rows and the listing
for u2 is empty. -/
theorem list_by_owner_spec_witness :
    (∀ t ∈ storeRent.rows, t.user_id ≠ "u2") ∧
    getTransactionsByUserId storeRent "u2" = [] :=
  ⟨by decide, (list_by_owner_spec storeRent "u2").2.2.2 (by decide)⟩

/-- C6: deleting with a non-numeric id fails with the validation outcome on
every store, without changing it, and that outcome is distinct from the
not-found outcome; deleting a numeric id held by no row fails with the
not-found outcome and leaves the store unchanged; deleting an existing
numeric id succeeds, and repeating the same delete afterwards fails with the
not-found outcome without changing the store again; and every call that does
not delete leaves the store unchanged. -/
theorem delete_semantics (s : Store) (idStr : String) :
    (parseNat? idStr = none →
      ∀ s2 : Store, deleteTransaction s2 idStr = (DeleteOutcome.validationError, s2)) ∧
    DeleteOutcome.validationError ≠ DeleteOutcome.notFound ∧
    (∀ n, parseNat? idStr = some n → (∀ t ∈ s.rows, t.id ≠ n) →
      deleteTransaction s idStr = (DeleteOutcome.notFound, s)) ∧
    (∀ n, parseNat? idStr = some n → (∃ t ∈ s.rows, t.id = n) →
      (deleteTransaction s idStr).1 = DeleteOutcome.deleted ∧
      deleteTransaction (deleteTransaction s idStr).2 idStr =
        (DeleteOutcome.notFound, (deleteTransaction s idStr).2)) ∧
    ((deleteTransaction s idStr).1 ≠ DeleteOutcome.deleted →
      (deleteTransaction s idStr).2 = s) := by
  refine ⟨?_, by decide, ?_, ?_, ?_⟩
  · intro h s2
    simp [deleteTransaction, h]
  · intro n hn ha
    have hany : ¬ (s.rows.any fun t => t.id == n) = true := by
      simp only [List.any_eq_true, beq_iff_eq]
      rintro ⟨t, ht, rfl⟩
      exact ha t ht rfl
    simp only [deleteTransaction, hn]
    rw [if_neg hany]
  · rintro n hn ⟨t, ht, hid⟩
    have hany : (s.rows.any fun x => x.id == n) = true := by
      simp only [List.any_eq_true, beq_iff_eq]
      exact ⟨t, ht, hid⟩
    have hdel : deleteTransaction s idStr =
        (DeleteOutcome.deleted, ⟨s.rows.filter fun x => decide (x.id ≠ n), s.nextId⟩) := by
      simp only [deleteTransaction, hn]
      rw [if_pos hany]
    have hany2 : ¬ (((s.rows.filter fun x => decide (x.id ≠ n)).any
        fun x => x.id == n) = true) := by
      simp only [List.any_eq_true, List.mem_filter, beq_iff_eq, decide_eq_true_eq]
      rintro ⟨x, ⟨_, hne⟩, hxn⟩
      exact hne hxn
    refine ⟨by rw [hdel], ?_⟩
    rw [hdel]
    simp only [deleteTransaction, hn]
    rw [if_neg hany2]
  · intro h
    rcases hn : parseNat? idStr with _ | n
    · simp [deleteTransaction, hn]
    · by_cases hany : (s.rows.any fun t => t.id == n) = true
      · exfalso
        apply h
        simp only [deleteTransaction, hn]
        rw [if_pos hany]
      · simp only [deleteTransaction, hn]
        rw [if_neg hany]

/-- C6 witness: on the scenario store, a non-numeric id is rejected with the
store untouched, a numeric id held by no row reports not-found with the
store untouched, and deleting the existing id 2 succeeds once, after which
the same delete reports not-found. -/
theorem delete_semantics_witness :
    deleteTransaction storeRent "abc" = (DeleteOutcome.validationError, storeRent) ∧
    deleteTransaction storeRent "99" = (DeleteOutcome.notFound, storeRent) ∧
    (deleteTransaction storeRent "2").1 = DeleteOutcome.deleted ∧
    deleteTransaction (deleteTransaction storeRent "2").2 "2" =
      (DeleteOutcome.notFound, (deleteTransaction storeRent "2").2) := by
  have h1 := (delete_semantics storeRent "abc").1 (by decide) storeRent
  have h2 := (delete_semantics storeRent "99").2.2.1 99 (by decide) (by decide)
  have hmem : (⟨2, "u1", "Rent", -800, "Housing", 0⟩ : Transaction) ∈ storeRent.rows :=
    List.mem_cons_self _ _
  have h3 := (delete_semantics storeRent "2").2.2.2.1 2 (by decide) ⟨_, hmem, rfl⟩
  exact ⟨h1, h2, h3.1, h3.2⟩

/-- C7: creating with all four fields present, the strings non-empty and the
amount numeric, succeeds with a row carrying exactly the given fields, the
store-assigned fresh id (the next id, which no stored row carries when ids
are below it) and the store-set creation date, and the row is listed by a
subsequent listing for its owner; a missing field makes the call fail with a
validation error naming that field, first missing first, with the store
unchanged, and an empty title likewise fails naming the title. -/
theorem create_semantics (s : Store) (today : Nat) (title category owner : String)
    (amount : ℚ) (ht : title ≠ "") (hc : category ≠ "") (ho : owner ≠ "") :
    createTransaction s ⟨some title, some amount, some category, some owner⟩ today =
      (CreateResult.created ⟨s.nextId, owner, title, amount, category, today⟩,
        ⟨⟨s.nextId, owner, title, amount, category, today⟩ :: s.rows, s.nextId + 1⟩) ∧
    ((∀ r ∈ s.rows, r.id < s.nextId) → ∀ r ∈ s.rows, r.id ≠ s.nextId) ∧
    (⟨s.nextId, owner, title, amount, category, today⟩ : Transaction) ∈
      getTransactionsByUserId
        ⟨⟨s.nextId, owner, title, amount, category, today⟩ :: s.rows, s.nextId + 1⟩ owner ∧
    (∀ am cat ow, createTransaction s ⟨none, am, cat, ow⟩ today =
      (CreateResult.validationError "title", s)) ∧
    (∀ ti cat ow, createTransaction s ⟨some ti, none, cat, ow⟩ today =
      (CreateResult.validationError "amount", s)) ∧
    (∀ ti am ow, createTransaction s ⟨some ti, some am, none, ow⟩ today =
      (CreateResult.validationError "category", s)) ∧
    (∀ ti am cat, createTransaction s ⟨some ti, some am, some cat, none⟩ today =
      (CreateResult.validationError "user_id", s)) ∧
    createTransaction s ⟨some "", some amount, some category, some owner⟩ today =
      (CreateResult.validationError "title", s) := by
  refine ⟨?_, ?_, ?_, fun am cat ow => rfl, fun ti cat ow => rfl,
    fun ti am ow => rfl, fun ti am cat => rfl, rfl⟩
  · simp only [createTransaction]
    rw [if_neg ht, if_neg hc, if_neg ho]
  · intro hlt r hr
    have := hlt r hr
    omega
  · unfold getTransactionsByUserId
    rw [(List.perm_insertionSort txBefore _).mem_iff]
    simp [List.mem_filter]

/-- C7 witness: creating a valid transaction in the fresh store yields the
row with id 1 and dates 0, and the validation hypotheses hold for the
concrete strings. -/
theorem create_semantics_witness :
    createTransaction store0 ⟨some "T", some 5, some "C", some "u9"⟩ 0 =
      (CreateResult.created ⟨1, "u9", "T", 5, "C", 0⟩, ⟨[⟨1, "u9", "T", 5, "C", 0⟩], 2⟩) ∧
    (⟨1, "u9", "T", 5, "C", 0⟩ : Transaction) ∈
      getTransactionsByUserId ⟨[⟨1, "u9", "T", 5, "C", 0⟩], 2⟩ "u9" :=
  ⟨(create_semantics store0 0 "T" "C" "u9" 5 (by decide) (by decide) (by decide)).1,
    (create_semantics store0 0 "T" "C" "u9" 5 (by decide) (by decide) (by decide)).2.2.1⟩

end WalletApi
